import Mathlib

/-!
Shallow embedding of `ttresults.py` (nixternal/ttresults): classification of
time-trial entries into gender/age cohorts (`create_riders`), series-progress
detection (`events_completed`), the per-cohort SQL filter/dedup pipeline
(`create_sql_tables`), and the fixed-width table renderer
(`create_html_tables`).

Conventions of the embedding:
* a spreadsheet cell is `Option String` (`none` is Python `None` / SQL NULL);
* Python truthiness of a cell is `truthyS`;
* the uncaught Python exceptions of the source (`ValueError` from `int()`,
  `TypeError` from string indices into tuples/lists) are `Except.error ()`;
* SQLite `DELETE ... WHERE` is a `List.filter` with the predicate evaluated
  against the table as it stands when the statement starts (rows that the
  statement itself removes cannot change the outcome here: a row is removed
  only when a same-name row with a strictly smaller value exists, and rows
  holding a minimal value are never removed, so the snapshot reading agrees
  with any incremental one);
* SQLite string comparison (BINARY collation) is Lean's `<` on `String`;
  any comparison with NULL is not-true, `x isnull` is `Option.isNone`.
-/

namespace TTResults

/-- One spreadsheet row restricted to `RESULT_KEYS`
(`ttresults.py` lines 38-40); every field is an optional text cell. -/
structure Entry where
  age : Option String
  gender : Option String
  ridername : Option String
  city : Option String
  state : Option String
  club : Option String
  tt1results : Option String
  tt2results : Option String
  tt3results : Option String
  tt4results : Option String
  cumulative2 : Option String
  cumulative3 : Option String
  ttseriestotal : Option String
deriving DecidableEq, Repr

/-- Python truthiness of an optional text cell: `None` and `''` are falsy. -/
def truthyS : Option String → Bool
  | none => false
  | some s => !(s.toList.isEmpty)

/-- Lexicographic strict comparison of character lists by code point; for
the ASCII data of this program this is exactly SQLite's BINARY collation
(and byte order coincides with code-point order for well-formed UTF-8). -/
def strLtB : List Char → List Char → Bool
  | [], [] => false
  | [], _ :: _ => true
  | _ :: _, [] => false
  | a :: as, b :: bs =>
    if a.toNat < b.toNat then true
    else if b.toNat < a.toNat then false
    else strLtB as bs

/-- SQLite BINARY `s1 < s2` on strings. -/
def sLt (a b : String) : Bool := strLtB a.toList b.toList

/-- `needle` occurs at the head of `hay`. -/
def headMatch : List Char → List Char → Bool
  | [], _ => true
  | _ :: _, [] => false
  | n :: ns, h :: hs => n == h && headMatch ns hs

/-- `needle` occurs somewhere inside `hay` (Python `needle in hay`). -/
def subList (needle : List Char) : List Char → Bool
  | [] => headMatch needle []
  | c :: cs => headMatch needle (c :: cs) || subList needle cs

/-- Python `needle in hay` on strings. -/
def strIn (needle hay : String) : Bool := subList needle.toList hay.toList

/-- Python whitespace (what `str.strip()` and `int()` ignore around a
number): space, tab, LF, VT, FF, CR. -/
def isSpaceB (c : Char) : Bool := c.toNat = 32 || (9 ≤ c.toNat && c.toNat ≤ 13)

/-- Decimal digit test by code point. -/
def isDigitB (c : Char) : Bool := 48 ≤ c.toNat && c.toNat ≤ 57

/-- Value of a decimal digit. -/
def digitVal (c : Char) : Nat := c.toNat - 48

/-- The number denoted by a digit sequence. -/
def natOfDigits (l : List Char) : Nat :=
  l.foldl (fun acc d => acc * 10 + digitVal d) 0

/-- Python 2 `int(s)`: optional surrounding whitespace, optional sign, at
least one decimal digit; `none` models the `ValueError` raised otherwise. -/
def pyInt (s : String) : Option Int :=
  match ((s.toList.dropWhile isSpaceB).reverse.dropWhile isSpaceB).reverse with
  | [] => none
  | c :: cs =>
    let neg := c == '-'
    let core := if c == '-' || c == '+' then cs else c :: cs
    if !core.isEmpty && core.all isDigitB then
      some (if neg then -(natOfDigits core : Int) else (natOfDigits core : Int))
    else none

/-- `AGE_GROUPS` (`ttresults.py` lines 42-44). -/
def AGE_GROUPS : List String :=
  ["10-14", "15-19", "20-24", "25-29", "30-34", "35-39", "40-44",
   "45-49", "50-54", "55-59", "60-64", "65-69", "70-74", "75-79",
   "80-84", "85-89", "90-94", "95-99"]

/-- `int(group.split('-')[0])`: lower bound of an age-group label, the
digits before the dash. -/
def groupLo (grp : String) : Nat :=
  natOfDigits (grp.toList.takeWhile (fun c => !(c == '-')))

/-- `int(group.split('-')[1])`: upper bound of an age-group label, the
digits after the dash. -/
def groupHi (grp : String) : Nat :=
  natOfDigits ((grp.toList.dropWhile (fun c => !(c == '-'))).drop 1)

/-- The source tests `int(rider['age']) == age` for each
`age in range(lo, hi+1)`; an integer age matches the group exactly when it
lies in the inclusive band. -/
def inBand (grp : String) (a : Int) : Bool :=
  decide ((groupLo grp : Int) ≤ a) && decide (a ≤ (groupHi grp : Int))

/-- Line 126: `rider['ridername'] and 'RIDER NAME' not in rider['ridername']`. -/
def riderOkB (e : Entry) : Bool :=
  truthyS e.ridername && !(strIn "RIDER NAME" ((e.ridername).getD ""))

/-- Classification of one entry (`create_riders` loop body, lines 126-143).
Returns the gender bucket together with the age groups the entry is appended
to; `Except.error ()` is the uncaught `ValueError` raised by
`int(rider['age'])` when the age cell is truthy but not a parseable integer
(the conversion runs as soon as the gender test succeeds, before any band
can match). -/
def classifyEntry (e : Entry) : Except Unit (Option (String × List String)) :=
  if riderOkB e then
    if e.gender == some "M" then
      if truthyS e.age then
        match pyInt ((e.age).getD "") with
        | none => .error ()
        | some a => .ok (some ("MEN", AGE_GROUPS.filter (fun grp => inBand grp a)))
      else .ok none
    else if e.gender == some "F" then
      if truthyS e.age then
        match pyInt ((e.age).getD "") with
        | none => .error ()
        | some a => .ok (some ("WOMEN", AGE_GROUPS.filter (fun grp => inBand grp a)))
      else .ok none
    else .ok none
  else .ok none

/-- The nested rider dictionary, read as a total function from gender bucket
and age-group label to the cohort's ordered member list (a missing key reads
as the empty cohort; the source's `try/append except KeyError` realises
exactly "append to a possibly missing key"). -/
def RidersFun : Type := String → String → List Entry

/-- Append `e` to every cohort `(g, grp)` with `grp ∈ grps`. -/
def addEntry (rs : RidersFun) (g : String) (grps : List String) (e : Entry) :
    RidersFun :=
  fun g0 grp0 =>
    if g0 == g && grps.contains grp0 then rs g0 grp0 ++ [e] else rs g0 grp0

/-- The entry loop of `create_riders`, threading the rider dictionary. -/
def createRidersGo (rs : RidersFun) : List Entry → Except Unit RidersFun
  | [] => .ok rs
  | e :: es =>
    match classifyEntry e with
    | .error u => .error u
    | .ok none => createRidersGo rs es
    | .ok (some (g, grps)) => createRidersGo (addEntry rs g grps e) es

/-- `create_riders` (lines 113-144): builds the cohorts, or propagates the
uncaught `ValueError`. -/
def create_riders (entries : List Entry) : Except Unit RidersFun :=
  createRidersGo (fun _ _ => []) entries

/-- The cohort `(g, grp)` produced by a run of `create_riders`; a run that
aborts produces no cohorts. -/
def cohortsOf (entries : List Entry) (g grp : String) : List Entry :=
  match create_riders entries with
  | .ok f => f g grp
  | .error _ => []

/-- `classifyEntry` sent `e` to cohort `(g, grp)`. -/
def classMatches (e : Entry) (g grp : String) : Bool :=
  match classifyEntry e with
  | .ok (some (g', grps)) => g' == g && grps.contains grp
  | _ => false

/-- `classifyEntry` raised the `ValueError`. -/
def classErr (e : Entry) : Bool :=
  match classifyEntry e with
  | .error _ => true
  | _ => false

/-! ## Series progress detector (`events_completed`, lines 91-110) -/

/-- Python 2 `count > k` where `count` may be `None`
(`None` compares below every integer in Python 2). -/
def optGtN (count : Option Nat) (k : Nat) : Bool :=
  match count with
  | none => false
  | some c => decide (k < c)

/-- The stage-1/2/3 `if/elif` chain of the loop body (lines 104-109). -/
def ecStep (count : Option Nat) (r : Entry) : Option Nat :=
  if truthyS r.tt3results then some 3
  else if truthyS r.tt2results && !(optGtN count 2) then some 2
  else if truthyS r.tt1results && !(optGtN count 1) then some 1
  else count

/-- The rider scan of `events_completed`; a non-empty `tt4results` returns 4
at once, without looking at the rest of the sequence (line 102-103). -/
def ecGo : Option Nat → List Entry → Option Nat
  | count, [] => count
  | count, r :: rs =>
    if truthyS r.tt4results then some 4 else ecGo (ecStep count r) rs

/-- `events_completed` over the riders in scan order (the source's triple
loop over the nested dictionary visits each rider once; the list is that
visit sequence). Returns `none` when no rider has any stage data. -/
def events_completed (l : List Entry) : Option Nat := ecGo none l

/-- Order on `Option Nat` with `none` at the bottom (spec-side ordering used
to state monotonicity of the scan). -/
def optLeN : Option Nat → Option Nat → Bool
  | none, _ => true
  | some _, none => false
  | some a, some b => decide (a ≤ b)

/-- Max on `Option Nat` with `none` as neutral element. -/
def omax : Option Nat → Option Nat → Option Nat
  | none, b => b
  | some a, none => some a
  | some a, some b => some (max a b)

/-- Spec-side reading: the maximum stage in {1,2,3} for which some rider has
a non-empty time value. -/
def maxStage123 (l : List Entry) : Option Nat :=
  if l.any (fun r => truthyS r.tt3results) then some 3
  else if l.any (fun r => truthyS r.tt2results) then some 2
  else if l.any (fun r => truthyS r.tt1results) then some 1
  else none

/-- The highest non-empty stage in {1,2,3} of a single rider. -/
def stageOf (r : Entry) : Option Nat :=
  if truthyS r.tt3results then some 3
  else if truthyS r.tt2results then some 2
  else if truthyS r.tt1results then some 1
  else none

/-! ## Per-cohort SQL pipeline (`create_sql_tables`, lines 147-199) -/

/-- SQL `x = y` on text cells: not-true when either side is NULL. -/
def sqlEqS : Option String → Option String → Bool
  | some a, some b => a == b
  | _, _ => false

/-- SQL `x > y` on text cells under BINARY collation: not-true when either
side is NULL. -/
def sqlGtS : Option String → Option String → Bool
  | some a, some b => sLt b a
  | _, _ => false

/-- `delete from T where exists (select * from T t2 where T.ridername =
t2.ridername and T.q > t2.q)`: drop every row that has a same-name row with
a strictly smaller qualifying value. -/
def dedupeBy (qual : Entry → Option String) (l : List Entry) : List Entry :=
  l.filter (fun r =>
    !(l.any (fun s => sqlEqS r.ridername s.ridername && sqlGtS (qual r) (qual s))))

/-- `delete from T where T.tt1results="DNS" or T.tt1results="DNF" or
T.tt1results isnull` (lines 176-178, run only when `events == 1`). -/
def sentinelFilter1 (l : List Entry) : List Entry :=
  l.filter (fun r =>
    !(r.tt1results == some "DNS" || r.tt1results == some "DNF"
      || (r.tt1results).isNone))

/-- `delete from T where exists (select * from T t2 where T.q isnull)`
(lines 183-184, 189-190, 195-196): the subquery ignores `t2`, so a row is
dropped exactly when its own qualifying cell is NULL and the table is
non-empty (it always is when the row itself is being tested). -/
def isnullFilterBy (qual : Entry → Option String) (l : List Entry) : List Entry :=
  l.filter (fun r => !(l.any (fun _ => (qual r).isNone)))

/-- The stage-dependent delete sequence `create_sql_tables` runs on one
cohort's table; for any other `events` value (including `None`) the table is
left untouched. -/
def create_sql_table : Option Nat → List Entry → List Entry
  | some 1, l => sentinelFilter1 (dedupeBy (fun e => e.tt1results) l)
  | some 2, l =>
    isnullFilterBy (fun e => e.cumulative2) (dedupeBy (fun e => e.cumulative2) l)
  | some 3, l =>
    isnullFilterBy (fun e => e.cumulative3) (dedupeBy (fun e => e.cumulative3) l)
  | some 4, l =>
    isnullFilterBy (fun e => e.ttseriestotal)
      (dedupeBy (fun e => e.ttseriestotal) l)
  | _, l => l

/-! ## `select * from T order by tt1results` (lines 237, 256, 276, 296)

Every `events` branch of `create_html_tables` orders by `tt1results`.
SQLite sorts NULLs first and strings by byte order; the embedding uses a
stable insertion sort (SQLite does not promise an order among equal keys;
nothing proved below about ties relies on this choice). -/

/-- Strict SQLite ORDER BY comparison on text cells: NULL sorts first. -/
def optLtS : Option String → Option String → Bool
  | none, none => false
  | none, some _ => true
  | some _, none => false
  | some a, some b => sLt a b

/-- Companion non-strict comparison. -/
def optLeS (a b : Option String) : Bool := !(optLtS b a)

/-- Insert one row into a run already ordered by `tt1results`. -/
def insertTT1 (e : Entry) : List Entry → List Entry
  | [] => [e]
  | x :: xs =>
    if optLtS e.tt1results x.tt1results then e :: x :: xs
    else x :: insertTT1 e xs

/-- The cursor order of `select * from T order by tt1results`. -/
def orderByTT1 : List Entry → List Entry
  | [] => []
  | x :: xs => insertTT1 x (orderByTT1 xs)

/-- The row sequence a cohort's table contributes to the rendered output:
the stage-dependent deletes followed by the `order by tt1results` select. -/
def leaderboard (events : Option Nat) (l : List Entry) : List Entry :=
  orderByTT1 (create_sql_table events l)

/-! ## Table renderer (`create_html_tables`, lines 202-320) -/

/-- The run-wide values interpolated into every table's trailer: the
`LAST_UPDATED` timestamp formatted with `%m/%d/%Y` and `%I:%M %p`, and the
`CONTACT_NAME` / `CONTACT_EMAIL` globals (possibly `None`). -/
structure RenderEnv where
  lastUpdatedDate : String
  lastUpdatedTime : String
  contactName : Option String
  contactEmail : Option String
deriving DecidableEq, Repr

/-- Python `'%s' % v` for an optional text cell: `None` prints as `"None"`. -/
def pyStr (o : Option String) : String := (o).getD "None"

/-- A run of `n` spaces. -/
def spaces (n : Nat) : String := String.mk (List.replicate n ' ')

/-- Python `'%-Ns' % s`: left-justify, pad with spaces to width `N`, never
truncate. -/
def ljust (w : Nat) (s : String) : String := s ++ spaces (w - s.length)

/-- One `'%-W1s %-W2s ...' % (v1, v2, ...)` line: width-padded fields joined
by single spaces. -/
def fmtRow (ws : List Nat) (vs : List String) : String :=
  String.intercalate " " (List.zipWith ljust ws vs)

/-- Python `str.center(width)` (CPython pads the extra cell on the left
exactly when both the margin and the width are odd). -/
def pyCenter (s : String) (w : Nat) : String :=
  if w ≤ s.length then s
  else
    let marg := w - s.length
    let left := marg / 2 + (if marg % 2 = 1 ∧ w % 2 = 1 then 1 else 0)
    spaces left ++ s ++ spaces (marg - left)

/-- `HEADER` (line 36). -/
def HEADER : String := "2011 ABD INDOOR TIME TRIAL SERIES"

/-- Column header names `chn` (lines 219-220). -/
def chn : List String :=
  ["Place", "Name", "City", "St.", "Club", "TT #1 Time", "TT #2 Time",
   "TT #3 Time", "TT #4 Time", "Total Time"]

/-- Column header borders `chb` (lines 222-227): `'='` repeated to the
column width. -/
def chb (n : Nat) : String := String.mk (List.replicate n '=')

/-- Column widths of the `events == 1` format string (line 241). -/
def ws1 : List Nat := [5, 20, 20, 3, 35, 12]

/-- Column widths of the `events == 2` format string (line 260). -/
def ws2 : List Nat := [5, 20, 20, 3, 35, 12, 12, 12]

/-- Column widths of the `events == 3` format string (line 280). -/
def ws3 : List Nat := [5, 20, 20, 3, 35, 12, 12, 12, 12]

/-- Column widths of the `events == 4` format string (line 300). -/
def ws4 : List Nat := [5, 20, 20, 3, 35, 12, 12, 12, 12, 12]

/-- `'<div id="%s" class="center">\n<pre>\n' % t` (line 231). -/
def divPre (t : String) : String :=
  "<div id=\"" ++ t ++ "\" class=\"center\">\n<pre>\n"

/-- The trailer appended to every table (lines 313-314). -/
def tableSuffix (env : RenderEnv) : String :=
  "</pre><div id=\"updated\"><br />Last updated on " ++ env.lastUpdatedDate
    ++ " at " ++ env.lastUpdatedTime ++ "<br /><br /></div>"
    ++ "<div id=\"contact\">Contact <a href=\"mailto:" ++ pyStr env.contactEmail
    ++ "?subject=Age Group TT Results Issue\">" ++ pyStr env.contactName
    ++ "</a> for any issues.</div></div>"

/-- Data row of the `events == 1` table (lines 248-249): place then row
columns 0-4 (ridername, city, state, club, tt1results). -/
def row1 (i : Nat) (e : Entry) : String :=
  fmtRow ws1 [toString (i + 1), pyStr e.ridername, pyStr e.city, pyStr e.state,
    pyStr e.club, pyStr e.tt1results]

/-- Data row of the `events == 2` table (lines 268-269): columns 0-5 and 8
(adds tt2results, then cumulative2). -/
def row2 (i : Nat) (e : Entry) : String :=
  fmtRow ws2 [toString (i + 1), pyStr e.ridername, pyStr e.city, pyStr e.state,
    pyStr e.club, pyStr e.tt1results, pyStr e.tt2results, pyStr e.cumulative2]

/-- All data rows, each terminated by a newline, places counted from 1. -/
def rowsText (row : Nat → Entry → String) (rows : List Entry) : String :=
  String.join ((rows.enum).map (fun p => row p.1 p.2 ++ "\n"))

/-- Header block shared by every branch: centered `HEADER`, centered group
label, blank line. -/
def headBlock (w : Nat) (grp : String) : String :=
  pyCenter HEADER w ++ "\n" ++ pyCenter grp w ++ "\n\n"

/-- Column-name and border rows of the `events == 1` table (lines 242-246). -/
def hdrBlock1 : String :=
  fmtRow ws1 [chn.getD 0 "", chn.getD 1 "", chn.getD 2 "", chn.getD 3 "",
    chn.getD 4 "", chn.getD 5 ""] ++ "\n"
  ++ fmtRow ws1 [chb 5, chb 20, chb 20, chb 3, chb 35, chb 12] ++ "\n"

/-- Column-name and border rows of the `events == 2` table (lines 261-266):
names 0-6 then `chn[9]` (`Total Time`) over the cumulative2 column. -/
def hdrBlock2 : String :=
  fmtRow ws2 [chn.getD 0 "", chn.getD 1 "", chn.getD 2 "", chn.getD 3 "",
    chn.getD 4 "", chn.getD 5 "", chn.getD 6 "", chn.getD 9 ""] ++ "\n"
  ++ fmtRow ws2 [chb 5, chb 20, chb 20, chb 3, chb 35, chb 12, chb 12, chb 12]
    ++ "\n"

/-- Column-name and border rows of the `events == 3` table (lines 281-285). -/
def hdrBlock3 : String :=
  fmtRow ws3 [chn.getD 0 "", chn.getD 1 "", chn.getD 2 "", chn.getD 3 "",
    chn.getD 4 "", chn.getD 5 "", chn.getD 6 "", chn.getD 7 "", chn.getD 9 ""]
    ++ "\n"
  ++ fmtRow ws3 [chb 5, chb 20, chb 20, chb 3, chb 35, chb 12, chb 12, chb 12,
    chb 12] ++ "\n"

/-- One table of `create_html_tables`: `t` is the SQL table name, `grp` the
`'GENDER lo-hi'` label, `rows` the cursor rows in `order by tt1results`
order.  `Except.error ()` models the uncaught `TypeError`s of the source:
* `events == 3` (line 289): each data row evaluates `rider['9']`, a string
  index into the row tuple, so any table with at least one row raises;
* `events == 4` (line 302): the column-header line itself evaluates
  `chn['9']`, a string index into the header list, so every table raises
  before any row is read.
For `events` outside 1-4 (in particular `None`) no branch runs and the
table is just the opening div and the trailer. -/
def htmlTable (env : RenderEnv) (events : Option Nat) (t grp : String)
    (rows : List Entry) : Except Unit String :=
  match events with
  | some 1 =>
    .ok (divPre t ++ headBlock 100 grp ++ hdrBlock1 ++ rowsText row1 rows
      ++ tableSuffix env)
  | some 2 =>
    .ok (divPre t ++ headBlock 126 grp ++ hdrBlock2 ++ rowsText row2 rows
      ++ tableSuffix env)
  | some 3 =>
    if rows.isEmpty then
      .ok (divPre t ++ headBlock 139 grp ++ hdrBlock3 ++ tableSuffix env)
    else .error ()
  | some 4 => .error ()
  | _ => .ok (divPre t ++ tableSuffix env)

/-! ## Concrete records used to instantiate the theorems -/

/-- A row with every cell absent. -/
def blankE : Entry :=
  ⟨none, none, none, none, none, none, none, none, none, none, none, none, none⟩

/-- A fixed rendering environment. -/
def env0 : RenderEnv :=
  ⟨"01/01/2011", "12:00 AM", some "Admin", some "admin@example.com"⟩

/-- Rider whose stage-1 time is faster but whose cumulative-after-2 is
slower. -/
def c1A : Entry :=
  { blankE with
    ridername := some "Al"
    gender := some "M"
    age := some "31"
    tt1results := some "00:02:00"
    tt2results := some "00:18:00"
    cumulative2 := some "00:20:00" }

/-- Rider whose stage-1 time is slower but whose cumulative-after-2 is
faster. -/
def c1B : Entry :=
  { blankE with
    ridername := some "Bo"
    gender := some "M"
    age := some "32"
    tt1results := some "00:09:00"
    tt2results := some "00:01:00"
    cumulative2 := some "00:10:00" }

/-- Rider whose cumulative-after-2 cell holds the DNS sentinel. -/
def c2d : Entry :=
  { blankE with
    ridername := some "Cy"
    gender := some "M"
    age := some "33"
    tt1results := some "00:08:00"
    cumulative2 := some "DNS" }

/-- Rider with a DNS stage-1 time. -/
def c2s : Entry :=
  { blankE with
    ridername := some "Ed"
    tt1results := some "DNS" }

/-- Rider with a normal stage-1 time. -/
def c2t : Entry :=
  { blankE with
    ridername := some "Dee"
    tt1results := some "00:05:00" }

/-- Rider with a normal cumulative-after-2 time. -/
def c2m : Entry :=
  { blankE with
    ridername := some "Fay"
    cumulative2 := some "00:30:00" }

/-- Rider with only a stage-1 time. -/
def c3s1 : Entry := { blankE with
    ridername := some "S1"
    tt1results := some "20:00" }

/-- Rider with only a stage-3 time. -/
def c3s3 : Entry := { blankE with
    ridername := some "S3"
    tt3results := some "21:00" }

/-- Rider with a stage-4 time. -/
def c3s4 : Entry := { blankE with
    ridername := some "S4"
    tt4results := some "22:00" }

/-- First of two same-name rows tied exactly on the stage-1 time. -/
def c4a : Entry :=
  { blankE with
    ridername := some "Flo"
    city := some "Aurora"
    tt1results := some "00:10:00" }

/-- Second of two same-name rows tied exactly on the stage-1 time. -/
def c4b : Entry :=
  { blankE with
    ridername := some "Flo"
    city := some "Batavia"
    tt1results := some "00:10:00" }

/-- Same-name pair of the spec's deduplication example: the slower row. -/
def c4h1 : Entry :=
  { blankE with
    ridername := some "Gus"
    tt1results := some "00:10:00" }

/-- Same-name pair of the spec's deduplication example: the faster row. -/
def c4h2 : Entry :=
  { blankE with
    ridername := some "Gus"
    tt1results := some "00:09:30" }

/-- Entry with a valid name and gender but an unparseable age cell. -/
def c6bad : Entry :=
  { blankE with
    ridername := some "Hal"
    gender := some "M"
    age := some "thirty" }

/-- Entry with an unrecognized gender token. -/
def c6x : Entry :=
  { blankE with
    ridername := some "Ivy"
    gender := some "X"
    age := some "44" }

/-- Rider with no stage data at all. -/
def c7e : Entry :=
  { blankE with
    ridername := some "Jo"
    gender := some "M"
    age := some "50" }

/-- End-to-end example rider A of the spec (stage-1 time 00:10:00). -/
def e8a : Entry :=
  { blankE with
    ridername := some "A"
    gender := some "M"
    age := some "32"
    tt1results := some "00:10:00" }

/-- End-to-end example rider B of the spec (stage-1 time 00:09:00). -/
def e8b : Entry :=
  { blankE with
    ridername := some "B"
    gender := some "M"
    age := some "33"
    tt1results := some "00:09:00" }

/-- Duplicate of rider A with the faster stage-1 time 00:09:30. -/
def e8a2 : Entry :=
  { blankE with
    ridername := some "A"
    gender := some "M"
    age := some "32"
    tt1results := some "00:09:30" }

/-- Entry whose gender is F and whose age cell is unparseable. -/
def c8bad : Entry :=
  { blankE with
    ridername := some "Kay"
    gender := some "F"
    age := some "??x" }

/-- Entry whose legitimate name merely contains the header placeholder. -/
def c10e : Entry :=
  { blankE with
    ridername := some "THE RIDER NAME 2"
    gender := some "M"
    age := some "44" }

/-! ## Helper lemmas: the `order by tt1results` sort -/

theorem strLtB_asymm : ∀ {as bs : List Char}, strLtB as bs = true →
    strLtB bs as = false := by
  intro as
  induction as with
  | nil =>
    intro bs h
    cases bs with
    | nil => exact nomatch h
    | cons b bs => rfl
  | cons a as ih =>
    intro bs h
    cases bs with
    | nil => exact nomatch h
    | cons b bs =>
      rw [strLtB] at h ⊢
      by_cases hab : a.toNat < b.toNat
      · rw [if_neg (by omega), if_pos hab]
      · rw [if_neg hab] at h
        by_cases hba : b.toNat < a.toNat
        · rw [if_pos hba] at h
          exact nomatch h
        · rw [if_neg hba] at h
          rw [if_neg hba, if_neg hab]
          exact ih h

theorem strLtB_trans : ∀ {as bs cs : List Char}, strLtB as bs = true →
    strLtB bs cs = true → strLtB as cs = true := by
  intro as
  induction as with
  | nil =>
    intro bs cs h1 h2
    cases bs with
    | nil => exact nomatch h1
    | cons b bs =>
      cases cs with
      | nil => exact nomatch h2
      | cons c cs => rfl
  | cons a as ih =>
    intro bs cs h1 h2
    cases bs with
    | nil => exact nomatch h1
    | cons b bs =>
      cases cs with
      | nil => exact nomatch h2
      | cons c cs =>
        rw [strLtB] at h1 h2 ⊢
        by_cases hab : a.toNat < b.toNat <;> by_cases hba : b.toNat < a.toNat <;>
          by_cases hbc : b.toNat < c.toNat <;> by_cases hcb : c.toNat < b.toNat <;>
            first
              | omega
              | (rw [if_pos (show a.toNat < c.toNat by omega)])
              | (rw [if_neg hab, if_neg (show ¬ b.toNat < a.toNat by omega)] at h1
                 rw [if_neg hbc, if_neg (show ¬ c.toNat < b.toNat by omega)] at h2
                 rw [if_neg (show ¬ a.toNat < c.toNat by omega),
                   if_neg (show ¬ c.toNat < a.toNat by omega)]
                 exact ih h1 h2)
              | (rw [if_neg hab, if_pos (show b.toNat < a.toNat by omega)] at h1
                 exact nomatch h1)
              | (rw [if_neg hbc, if_pos (show c.toNat < b.toNat by omega)] at h2
                 exact nomatch h2)

theorem optLtS_asymm {a b : Option String} (h : optLtS a b = true) :
    optLtS b a = false := by
  cases a with
  | none =>
    cases b with
    | none => exact nomatch h
    | some t => rfl
  | some s =>
    cases b with
    | none => exact nomatch h
    | some t => exact strLtB_asymm h

theorem optLtS_trans {a b c : Option String} (h1 : optLtS a b = true)
    (h2 : optLtS b c = true) : optLtS a c = true := by
  cases a with
  | none =>
    cases b with
    | none => exact nomatch h1
    | some t =>
      cases c with
      | none => exact nomatch h2
      | some u => rfl
  | some s =>
    cases b with
    | none => exact nomatch h1
    | some t =>
      cases c with
      | none => exact nomatch h2
      | some u => exact strLtB_trans h1 h2

theorem insertTT1_perm (e : Entry) (l : List Entry) :
    (insertTT1 e l).Perm (e :: l) := by
  induction l with
  | nil => exact List.Perm.refl _
  | cons x xs ih =>
    rw [insertTT1]
    split
    · exact List.Perm.refl _
    · exact (ih.cons x).trans (List.Perm.swap e x xs)

theorem orderByTT1_perm (l : List Entry) : (orderByTT1 l).Perm l := by
  induction l with
  | nil => exact List.Perm.refl _
  | cons x xs ih =>
    exact (insertTT1_perm x (orderByTT1 xs)).trans (ih.cons x)

theorem pairwise_insertTT1 {e : Entry} {l : List Entry}
    (h : l.Pairwise (fun a b => optLeS a.tt1results b.tt1results = true)) :
    (insertTT1 e l).Pairwise
      (fun a b => optLeS a.tt1results b.tt1results = true) := by
  induction l with
  | nil => exact List.pairwise_singleton _ e
  | cons x xs ih =>
    rcases List.pairwise_cons.mp h with ⟨hx, hxs⟩
    rw [insertTT1]
    split
    · rename_i hlt
      refine List.pairwise_cons.mpr ⟨?_, h⟩
      intro y hy
      rcases List.mem_cons.mp hy with rfl | hy'
      · simp only [optLeS, optLtS_asymm hlt, Bool.not_false]
      · have hxy := hx y hy'
        simp only [optLeS, Bool.not_eq_true'] at hxy ⊢
        rcases hb : optLtS y.tt1results e.tt1results with _ | _
        · rfl
        · exact absurd (optLtS_trans hb hlt) (by simp [hxy])
    · rename_i hnlt
      refine List.pairwise_cons.mpr ⟨?_, ih hxs⟩
      intro z hz
      have hz' : z ∈ e :: xs := (insertTT1_perm e xs).mem_iff.mp hz
      rcases List.mem_cons.mp hz' with rfl | hz''
      · simp only [optLeS, Bool.not_eq_true']
        exact Bool.not_eq_true _ ▸ (by simpa using hnlt)
      · exact hx z hz''

theorem orderByTT1_sorted (l : List Entry) :
    (orderByTT1 l).Pairwise
      (fun a b => optLeS a.tt1results b.tt1results = true) := by
  induction l with
  | nil => exact List.Pairwise.nil
  | cons x xs ih => exact pairwise_insertTT1 ih

/-! ## Helper lemmas: the SQL deletes -/

theorem mem_dedupeBy {qual : Entry → Option String} {l : List Entry}
    {r : Entry} :
    r ∈ dedupeBy qual l ↔
      r ∈ l ∧ ¬ ∃ s ∈ l, sqlEqS r.ridername s.ridername = true ∧
        sqlGtS (qual r) (qual s) = true := by
  simp [dedupeBy, List.mem_filter, List.any_eq_true]

theorem mem_sentinelFilter1 {l : List Entry} {r : Entry} :
    r ∈ sentinelFilter1 l ↔
      r ∈ l ∧ r.tt1results ≠ some "DNS" ∧ r.tt1results ≠ some "DNF" ∧
        r.tt1results ≠ none := by
  simp [sentinelFilter1, List.mem_filter, Option.isNone_iff_eq_none, not_or,
    and_assoc, Option.isSome_iff_ne_none]

theorem mem_isnullFilterBy {qual : Entry → Option String} {l : List Entry}
    {r : Entry} (h : r ∈ isnullFilterBy qual l) : r ∈ l ∧ qual r ≠ none := by
  rcases List.mem_filter.mp h with ⟨hm, hp⟩
  refine ⟨hm, fun hnone => ?_⟩
  rw [Bool.not_eq_true', List.any_eq_false] at hp
  have := hp r hm
  rw [hnone] at this
  exact this rfl

/-! ## Helper lemmas: the classifier -/

theorem createRidersGo_ok_eq {es : List Entry} :
    ∀ {rs f : RidersFun}, createRidersGo rs es = .ok f →
      ∀ g grp, f g grp = rs g grp ++ es.filter (fun e => classMatches e g grp) := by
  induction es with
  | nil =>
    intro rs f h g grp
    cases h
    simp
  | cons e es ih =>
    intro rs f h g grp
    rw [createRidersGo] at h
    rcases hc : classifyEntry e with u | oc
    · rw [hc] at h; exact nomatch h
    · rcases oc with _ | ⟨gKey, grps⟩
      · rw [hc] at h
        have hmm : classMatches e g grp = false := by
          simp [classMatches, hc]
        simp [List.filter_cons, hmm, ih h g grp]
      · rw [hc] at h
        have := ih h g grp
        rw [this]
        have hmm : classMatches e g grp = (gKey == g && grps.contains grp) := by
          simp [classMatches, hc]
        by_cases hg : g = gKey
        · subst hg
          by_cases hp : grp ∈ grps
          · simp [List.filter_cons, hmm, hp, addEntry, List.append_assoc]
          · simp [List.filter_cons, hmm, hp, addEntry]
        · have h1 : (gKey == g) = false := by
            simp [Ne.symm hg]
          have h2 : (g == gKey) = false := by
            simp [hg]
          simp [List.filter_cons, hmm, h1, h2, addEntry]

theorem createRidersGo_ok_of_noerr {es : List Entry} :
    ∀ rs : RidersFun, (∀ e ∈ es, classErr e = false) →
      ∃ f, createRidersGo rs es = .ok f := by
  induction es with
  | nil => intro rs _; exact ⟨rs, rfl⟩
  | cons e es ih =>
    intro rs h
    have he : classErr e = false := h e (List.mem_cons_self e es)
    have hes : ∀ x ∈ es, classErr x = false :=
      fun x hx => h x (List.mem_cons_of_mem e hx)
    rw [createRidersGo]
    rcases hc : classifyEntry e with u | oc
    · rw [classErr, hc] at he; exact nomatch he
    · rcases oc with _ | ⟨gKey, grps⟩
      · exact ih rs hes
      · exact ih (addEntry rs gKey grps e) hes

theorem create_riders_eq {entries : List Entry}
    (h : ∀ e ∈ entries, classErr e = false) :
    create_riders entries =
      .ok (fun g grp => entries.filter (fun e => classMatches e g grp)) := by
  rcases createRidersGo_ok_of_noerr (fun _ _ => []) h with ⟨f, hf⟩
  rw [create_riders, hf]
  refine congrArg Except.ok (funext fun g => funext fun grp => ?_)
  simpa using createRidersGo_ok_eq hf g grp

theorem classifyEntry_none_not_mem {e : Entry}
    (hc : classifyEntry e = .ok none) (entries : List Entry) (g grp : String) :
    e ∉ cohortsOf entries g grp := by
  intro hmem
  rcases hr : create_riders entries with u | f
  · simp only [cohortsOf, hr] at hmem
    exact absurd hmem (List.not_mem_nil e)
  · simp only [cohortsOf, hr] at hmem
    have hgo : createRidersGo (fun _ _ => []) entries = .ok f := hr
    have heq := createRidersGo_ok_eq hgo g grp
    rw [heq] at hmem
    simp only [List.nil_append] at hmem
    rcases List.mem_filter.mp hmem with ⟨_, hp⟩
    simp only [classMatches, hc] at hp
    exact nomatch hp

theorem classifyEntry_gender_invalid {e : Entry} (hM : e.gender ≠ some "M")
    (hF : e.gender ≠ some "F") : classifyEntry e = .ok none := by
  rw [classifyEntry]
  have hM' : (e.gender == some "M") = false := by
    simp [hM]
  have hF' : (e.gender == some "F") = false := by
    simp [hF]
  split
  · rw [hM', hF']
    simp
  · rfl

theorem classifyEntry_header {e : Entry}
    (h : strIn "RIDER NAME" ((e.ridername).getD "") = true) :
    classifyEntry e = .ok none := by
  have hok : riderOkB e = false := by
    simp [riderOkB, h]
  rw [classifyEntry, hok]
  simp

theorem classifyEntry_badage {e : Entry} (hok : riderOkB e = true)
    (hg : e.gender = some "M" ∨ e.gender = some "F")
    (ha : truthyS e.age = true) (hp : pyInt ((e.age).getD "") = none) :
    classifyEntry e = .error () := by
  rw [classifyEntry, hok]
  rcases hg with hg | hg
  · have : (e.gender == some "M") = true := by simp [hg]
    rw [this]
    simp only [if_true, ha, hp]
  · have h1 : (e.gender == some "F") = true := by simp [hg]
    have h2 : (e.gender == some "M") = false := by simp [hg]
    rw [h2, h1]
    simp only [Bool.false_eq_true, if_false, if_true, ha, hp]

/-! ## Helper lemmas: the progress detector -/

theorem ecStep_le3 {c : Option Nat} {r : Entry}
    (h : optLeN c (some 3) = true) : optLeN (ecStep c r) (some 3) = true := by
  rw [ecStep]
  split
  · rfl
  · split
    · rfl
    · split
      · rfl
      · exact h

theorem ecStep_omax {c : Option Nat} {r : Entry}
    (h : optLeN c (some 3) = true) : ecStep c r = omax c (stageOf r) := by
  cases c with
  | none =>
    rw [ecStep, stageOf]
    cases h3 : truthyS r.tt3results <;> cases h2 : truthyS r.tt2results <;>
      cases h1 : truthyS r.tt1results <;> simp [optGtN, omax]
  | some c0 =>
    have hc : c0 ≤ 3 := of_decide_eq_true h
    rw [ecStep, stageOf]
    cases h3 : truthyS r.tt3results <;> cases h2 : truthyS r.tt2results <;>
      cases h1 : truthyS r.tt1results <;>
        by_cases hlt2 : 2 < c0 <;> by_cases hlt1 : 1 < c0 <;>
          simp [optGtN, omax, hlt2, hlt1] <;> omega

theorem maxStage123_cons (r : Entry) (l : List Entry) :
    maxStage123 (r :: l) = omax (stageOf r) (maxStage123 l) := by
  rw [maxStage123, maxStage123, stageOf]
  simp only [List.any_cons]
  by_cases h3 : truthyS r.tt3results = true <;>
    by_cases h2 : truthyS r.tt2results = true <;>
      by_cases h1 : truthyS r.tt1results = true <;>
        by_cases g3 : l.any (fun r => truthyS r.tt3results) = true <;>
          by_cases g2 : l.any (fun r => truthyS r.tt2results) = true <;>
            by_cases g1 : l.any (fun r => truthyS r.tt1results) = true <;>
              simp [h3, h2, h1, g3, g2, g1, omax]

theorem omax_assoc (a b c : Option Nat) :
    omax (omax a b) c = omax a (omax b c) := by
  cases a <;> cases b <;> cases c <;> simp [omax, Nat.max_assoc]

theorem ecGo_eq_omax {l : List Entry} :
    ∀ {c : Option Nat}, optLeN c (some 3) = true →
      l.any (fun r => truthyS r.tt4results) = false →
      ecGo c l = omax c (maxStage123 l) := by
  induction l with
  | nil =>
    intro c _ _
    cases c <;> simp [ecGo, maxStage123, omax]
  | cons r rs ih =>
    intro c hc h4
    rw [List.any_cons, Bool.or_eq_false_iff] at h4
    rw [ecGo, h4.1]
    rw [if_neg (by simp), ih (ecStep_le3 hc) h4.2, ecStep_omax hc, omax_assoc,
      ← maxStage123_cons]

theorem events_completed_max {l : List Entry}
    (h4 : l.any (fun r => truthyS r.tt4results) = false) :
    events_completed l = maxStage123 l := by
  rw [events_completed, ecGo_eq_omax (c := none) rfl h4, omax]

theorem maxStage123_le3 (l : List Entry) :
    optLeN (maxStage123 l) (some 3) = true := by
  rw [maxStage123]
  cases g3 : l.any (fun r => truthyS r.tt3results) <;>
    cases g2 : l.any (fun r => truthyS r.tt2results) <;>
      cases g1 : l.any (fun r => truthyS r.tt1results) <;> simp [optLeN]

theorem ecGo_tt4 (l1 : List Entry) :
    ∀ {c : Option Nat} (r : Entry) (l2 : List Entry),
      truthyS r.tt4results = true →
        ecGo c (l1 ++ r :: l2) = some 4 ∧ ecGo c (l1 ++ [r]) = some 4 := by
  induction l1 with
  | nil =>
    intro c r l2 h
    constructor <;> simp [ecGo, h]
  | cons x l1 ih =>
    intro c r l2 h
    cases hx : truthyS x.tt4results
    · constructor
      · rw [List.cons_append, ecGo, hx, if_neg (by simp)]
        exact (ih (c := ecStep c x) r l2 h).1
      · rw [List.cons_append, ecGo, hx, if_neg (by simp)]
        exact (ih (c := ecStep c x) r l2 h).2
    · constructor <;> simp [List.cons_append, ecGo, hx]

theorem ecGo_any4 {l : List Entry}
    (h : l.any (fun r => truthyS r.tt4results) = true) :
    ∀ c, ecGo c l = some 4 := by
  induction l with
  | nil => exact nomatch h
  | cons r rs ih =>
    intro c
    rw [List.any_cons, Bool.or_eq_true_iff] at h
    cases hr : truthyS r.tt4results
    · have h' : rs.any (fun r => truthyS r.tt4results) = true := by
        rcases h with h | h
        · exact nomatch (hr ▸ h)
        · exact h
      rw [ecGo, hr]
      simpa using ih h' (ecStep c r)
    · rw [ecGo, hr]
      simp

theorem ecGo_append {l1 : List Entry} :
    ∀ {c : Option Nat} (l2 : List Entry),
      l1.any (fun r => truthyS r.tt4results) = false →
      ecGo c (l1 ++ l2) = ecGo (ecGo c l1) l2 := by
  induction l1 with
  | nil => intro c l2 _; rfl
  | cons x l1 ih =>
    intro c l2 h
    rw [List.any_cons, Bool.or_eq_false_iff] at h
    rw [List.cons_append, ecGo, h.1]
    rw [if_neg (by simp), ih l2 h.2]
    rw [ecGo, h.1, if_neg (by simp)]

theorem optLeN_trans {a b c : Option Nat} (h1 : optLeN a b = true)
    (h2 : optLeN b c = true) : optLeN a c = true := by
  cases a <;> cases b <;> cases c <;> simp_all [optLeN]
  omega

theorem optLeN_omax_left (c s : Option Nat) : optLeN c (omax c s) = true := by
  cases c <;> cases s <;> simp [optLeN, omax, Nat.le_max_left]

theorem ecGo_mono {l : List Entry} :
    ∀ {c : Option Nat}, optLeN c (some 3) = true →
      optLeN c (ecGo c l) = true := by
  induction l with
  | nil =>
    intro c _
    cases c <;> simp [ecGo, optLeN]
  | cons r rs ih =>
    intro c hc
    cases hr : truthyS r.tt4results
    · rw [ecGo, hr, if_neg (by simp)]
      have h1 : optLeN c (ecStep c r) = true := by
        rw [ecStep_omax hc]
        exact optLeN_omax_left c (stageOf r)
      exact optLeN_trans h1 (ih (ecStep_le3 hc))
    · rw [ecGo, hr, if_pos rfl]
      cases c with
      | none => rfl
      | some c0 =>
        have : c0 ≤ 3 := of_decide_eq_true hc
        simp only [optLeN, decide_eq_true_eq]
        omega

/-! ## Claims -/

/-- C1 (amended): the surviving records of a cohort's leaderboard are, at
EVERY series-progress stage, ordered ascending by the stage-1 time field
`tt1results` (NULLs first, SQLite string order) — every `events` branch of
`create_html_tables` issues `select * from T order by tt1results` — and the
leaderboard is a permutation of the filtered table.  Only at stage 1 does
this coincide with the stage's qualifying field; the claim's statement that
stage n sorts by stage n's qualifying field fails for n = 2, 3, 4. -/
theorem C1_leaderboard_order (events : Option Nat) (l : List Entry) :
    (leaderboard events l).Pairwise
      (fun a b => optLeS a.tt1results b.tt1results = true) ∧
    (leaderboard events l).Perm (create_sql_table events l) :=
  ⟨orderByTT1_sorted _, orderByTT1_perm _⟩

/-- C1 counterexample: at stage 2 the claim demands ascending
`cumulative2`; with two riders whose stage-1 order reverses their
cumulative-after-2 order, the leaderboard's `cumulative2` column comes out
strictly descending ("00:20:00" before "00:10:00"). -/
theorem C1_counterexample :
    (leaderboard (some 2) [c1A, c1B]).map (fun e => e.cumulative2) =
      [some "00:20:00", some "00:10:00"] ∧
    optLtS (some "00:10:00") (some "00:20:00") = true := by
  exact ⟨by decide, by decide⟩

/-- C2 (amended): at stage 1 a surviving record's stage-1 time is neither
the DNS nor the DNF sentinel nor NULL; at stages 2, 3 and 4 only records
whose qualifying field is NULL are removed — the DNS/DNF sentinel delete is
issued only in the `events == 1` branch of `create_sql_tables`, so
sentinel-valued cumulative/series-total fields survive. -/
theorem C2_stage_filters :
    (∀ (l : List Entry) (r : Entry), r ∈ create_sql_table (some 1) l →
        r.tt1results ≠ some "DNS" ∧ r.tt1results ≠ some "DNF" ∧
          r.tt1results ≠ none) ∧
    (∀ (l : List Entry) (r : Entry), r ∈ create_sql_table (some 2) l →
        r.cumulative2 ≠ none) ∧
    (∀ (l : List Entry) (r : Entry), r ∈ create_sql_table (some 3) l →
        r.cumulative3 ≠ none) ∧
    (∀ (l : List Entry) (r : Entry), r ∈ create_sql_table (some 4) l →
        r.ttseriestotal ≠ none) := by
  refine ⟨?_, ?_, ?_, ?_⟩
  · intro l r h
    exact (mem_sentinelFilter1.mp h).2
  · intro l r h
    exact (mem_isnullFilterBy h).2
  · intro l r h
    exact (mem_isnullFilterBy h).2
  · intro l r h
    exact (mem_isnullFilterBy h).2

/-- C2 witness: a DNS stage-1 row is removed at stage 1 while a normal
cumulative-after-2 row survives the stage-2 NULL filter. -/
theorem C2_witness :
    (c2t.tt1results ≠ some "DNS" ∧ c2t.tt1results ≠ some "DNF" ∧
      c2t.tt1results ≠ none) ∧ c2m.cumulative2 ≠ none :=
  ⟨C2_stage_filters.1 [c2s, c2t] c2t (by decide),
   C2_stage_filters.2.1 [c2m] c2m (by decide)⟩

/-- C2 counterexample: a record whose stage-2 qualifying field
`cumulative2` holds the DNS sentinel stays on the stage-2 leaderboard,
refuting the claim that sentinel-valued records are absent at every
stage. -/
theorem C2_counterexample :
    leaderboard (some 2) [c2d] = [c2d] ∧ c2d.cumulative2 = some "DNS" := by
  exact ⟨by decide, rfl⟩

/-- C3 (confirmed): `events_completed` returns 4 as soon as the scan meets
a rider with a non-empty stage-4 time — the result ignores everything after
that rider — and otherwise returns the maximum stage in {1,2,3} for which
some rider has a non-empty time; along any prefix of the scan the result
only ever upgrades (with `none`, Python's `None`, below every stage). -/
theorem C3_events_completed :
    (∀ (l1 : List Entry) (r : Entry) (l2 : List Entry),
        truthyS r.tt4results = true →
          events_completed (l1 ++ r :: l2) = events_completed (l1 ++ [r]) ∧
          events_completed (l1 ++ r :: l2) = some 4) ∧
    (∀ l : List Entry, l.any (fun r => truthyS r.tt4results) = false →
        events_completed l = maxStage123 l) ∧
    (∀ l1 l2 : List Entry,
        optLeN (events_completed l1) (events_completed (l1 ++ l2)) = true) := by
  refine ⟨?_, ?_, ?_⟩
  · intro l1 r l2 h
    have h1 := ecGo_tt4 l1 (c := none) r l2 h
    exact ⟨h1.1.trans h1.2.symm, h1.1⟩
  · intro l h4
    exact events_completed_max h4
  · intro l1 l2
    cases hb : l1.any (fun r => truthyS r.tt4results)
    · rw [events_completed, events_completed, ecGo_append l2 hb]
      have hle : optLeN (ecGo none l1) (some 3) = true := by
        rw [show ecGo none l1 = events_completed l1 from rfl,
          events_completed_max hb]
        exact maxStage123_le3 l1
      exact ecGo_mono hle
    · have hb2 : (l1 ++ l2).any (fun r => truthyS r.tt4results) = true := by
        rw [List.any_append, hb, Bool.true_or]
      rw [events_completed, events_completed, ecGo_any4 hb none,
        ecGo_any4 hb2 none]
      rfl

/-- C3 witness: a stage-4 rider in second position makes the scan stop
there (the third rider is irrelevant) and return 4; without stage-4 data
the detector returns the maximum stage present; a longer scan never reports
less than a shorter one. -/
theorem C3_witness :
    (events_completed [c3s1, c3s4, c3s3] = events_completed [c3s1, c3s4] ∧
      events_completed [c3s1, c3s4, c3s3] = some 4) ∧
    events_completed [c3s1, c3s3] = maxStage123 [c3s1, c3s3] ∧
    optLeN (events_completed [c3s1]) (events_completed ([c3s1] ++ [c3s3])) =
      true :=
  ⟨C3_events_completed.1 [c3s1] c3s4 [c3s3] (by decide),
   C3_events_completed.2.1 [c3s1, c3s3] (by decide),
   C3_events_completed.2.2 [c3s1] [c3s3]⟩

/-- C4 (amended): the dedup delete keeps, per rider name, exactly the rows
whose qualifying value is minimal under string comparison: a row with a
same-name strictly smaller row is removed, a row with no same-name strictly
smaller row survives, and the survivors keep input order (the delete is a
filter). When two same-name rows tie exactly on the qualifying value,
NEITHER has a strictly smaller counterpart, so BOTH are kept — the claim's
"keep the first, discard the other" fails (see the counterexample). -/
theorem C4_dedup :
    (∀ (qual : Entry → Option String) (l : List Entry) (r : Entry), r ∈ l →
        (∀ s ∈ l, sqlEqS r.ridername s.ridername = true →
          sqlGtS (qual r) (qual s) = false) →
        r ∈ dedupeBy qual l) ∧
    (∀ (qual : Entry → Option String) (l : List Entry) (r s : Entry),
        r ∈ l → s ∈ l → sqlEqS r.ridername s.ridername = true →
        sqlGtS (qual r) (qual s) = true → r ∉ dedupeBy qual l) ∧
    (∀ (qual : Entry → Option String) (l : List Entry),
        (dedupeBy qual l).Sublist l) := by
  refine ⟨?_, ?_, ?_⟩
  · intro qual l r hr hmin
    refine mem_dedupeBy.mpr ⟨hr, ?_⟩
    rintro ⟨s, hs, he, hgt⟩
    exact nomatch ((hmin s hs he).symm.trans hgt)
  · intro qual l r s hr hs he hgt hmem
    rcases mem_dedupeBy.mp hmem with ⟨_, hno⟩
    exact hno ⟨s, hs, he, hgt⟩
  · intro qual l
    exact List.filter_sublist l

/-- C4 witness: the spec's own deduplication example — same name, values
"00:10:00" and "00:09:30": the slower row is discarded, the faster row
survives. -/
theorem C4_witness :
    c4h2 ∈ dedupeBy (fun e => e.tt1results) [c4h1, c4h2] ∧
    c4h1 ∉ dedupeBy (fun e => e.tt1results) [c4h1, c4h2] :=
  ⟨C4_dedup.1 (fun e => e.tt1results) [c4h1, c4h2] c4h2 (by decide)
      (by decide),
   C4_dedup.2.1 (fun e => e.tt1results) [c4h1, c4h2] c4h1 c4h2 (by decide)
      (by decide) (by decide) (by decide)⟩

/-- C4 counterexample: two distinct same-name records tied exactly on the
stage-1 qualifying value BOTH survive the stage-1 pipeline, refuting
"deduplication keeps exactly one record per name ... the one encountered
first is kept and the other discarded". -/
theorem C4_counterexample :
    create_sql_table (some 1) [c4a, c4b] = [c4a, c4b] ∧
    c4a.ridername = c4b.ridername ∧ c4a ≠ c4b := by
  exact ⟨by decide, rfl, by decide⟩

/-- C5 (code bug): the stage-3 and stage-4 rendering branches of
`create_html_tables` never produce their 139- and 152-character tables: the
`events == 4` branch evaluates `chn['9']` (a string index into the header
list) while building the column-header line, raising `TypeError` for every
table, and the `events == 3` branch evaluates `rider['9']` (a string index
into the row tuple) for each data row, raising `TypeError` whenever the
table has at least one row; an empty stage-3 table still renders. -/
theorem C5_render_typeerror :
    htmlTable env0 (some 4) "MEN_30_34" "MEN 30-34" [] = Except.error () ∧
    htmlTable env0 (some 3) "MEN_35_39" "MEN 35-39" [e8a] = Except.error () ∧
    (htmlTable env0 (some 3) "MEN_35_39" "MEN 35-39" []).isOk = true :=
  ⟨rfl, rfl, rfl⟩

/-- C6 (amended): an entry whose gender token is neither "M" nor "F" is
classified into no cohort and raises nothing; but an entry with a truthy,
unparseable age cell and gender "M" or "F" makes `int(rider['age'])` raise
an uncaught `ValueError`, aborting the run — the claim's "never aborts"
fails for unparseable ages. -/
theorem C6_classifier_errors :
    (∀ e : Entry, e.gender ≠ some "M" → e.gender ≠ some "F" →
        classifyEntry e = .ok none) ∧
    (∀ (entries : List Entry) (e : Entry) (g grp : String),
        classifyEntry e = .ok none → e ∉ cohortsOf entries g grp) ∧
    (∀ e : Entry, riderOkB e = true →
        (e.gender = some "M" ∨ e.gender = some "F") →
        truthyS e.age = true → pyInt ((e.age).getD "") = none →
        classifyEntry e = .error ()) :=
  ⟨fun _ hM hF => classifyEntry_gender_invalid hM hF,
   fun entries _ g grp hc => classifyEntry_none_not_mem hc entries g grp,
   fun _ hok hg ha hp => classifyEntry_badage hok hg ha hp⟩

/-- C6 witness: gender token "X" is silently excluded from all cohorts;
gender "M" with age "thirty" raises. -/
theorem C6_witness :
    classifyEntry c6x = Except.ok none ∧
    c6x ∉ cohortsOf [c6x] "MEN" "40-44" ∧
    classifyEntry c6bad = Except.error () :=
  ⟨C6_classifier_errors.1 c6x (by decide) (by decide),
   C6_classifier_errors.2.1 [c6x] c6x "MEN" "40-44"
     (C6_classifier_errors.1 c6x (by decide) (by decide)),
   C6_classifier_errors.2.2 c6bad (by decide) (Or.inl (by decide))
     (by decide) (by decide)⟩

/-- C6 counterexample: an entry with a present but unparseable age cell and
gender "M" makes `create_riders` abort with the uncaught `ValueError`,
refuting "the malformed entry ... never aborts the run". -/
theorem C6_counterexample :
    create_riders [c6bad] = Except.error () ∧
    truthyS c6bad.age = true ∧ pyInt ((c6bad.age).getD "") = none :=
  ⟨rfl, rfl, rfl⟩

/-- C7 (amended): when no rider has any stage data the detector returns the
undetermined marker (Python `None`) — but nothing fails: `create_sql_tables`
runs no delete at all, and `create_html_tables` silently emits, for every
cohort, a stub block holding only the opening div and the trailer (no
header, no rows, no error). -/
theorem C7_undetermined_silent :
    ∀ (l : List Entry) (env : RenderEnv) (t grp : String) (rows : List Entry),
      (∀ r ∈ l, truthyS r.tt1results = false ∧ truthyS r.tt2results = false ∧
        truthyS r.tt3results = false ∧ truthyS r.tt4results = false) →
      events_completed l = none ∧
      create_sql_table (events_completed l) l = l ∧
      htmlTable env (events_completed l) t grp rows =
        .ok (divPre t ++ tableSuffix env) := by
  intro l env t grp rows h
  have h4 : l.any (fun r => truthyS r.tt4results) = false :=
    List.any_eq_false.mpr (fun r hr => by simp [(h r hr).2.2.2])
  have h3 : l.any (fun r => truthyS r.tt3results) = false :=
    List.any_eq_false.mpr (fun r hr => by simp [(h r hr).2.2.1])
  have h2 : l.any (fun r => truthyS r.tt2results) = false :=
    List.any_eq_false.mpr (fun r hr => by simp [(h r hr).2.1])
  have h1 : l.any (fun r => truthyS r.tt1results) = false :=
    List.any_eq_false.mpr (fun r hr => by simp [(h r hr).1])
  have hec : events_completed l = none := by
    rw [events_completed_max h4]
    simp [maxStage123, h3, h2, h1]
  refine ⟨hec, ?_, ?_⟩
  · rw [hec]
    rfl
  · rw [hec]
    rfl

/-- C7 witness: one rider with no stage data. -/
theorem C7_witness :
    events_completed [c7e] = none ∧
    create_sql_table (events_completed [c7e]) [c7e] = [c7e] ∧
    htmlTable env0 (events_completed [c7e]) "MEN_50_54" "MEN 50-54" [c7e] =
      .ok (divPre "MEN_50_54" ++ tableSuffix env0) :=
  C7_undetermined_silent [c7e] env0 "MEN_50_54" "MEN 50-54" [c7e] (by decide)

/-- C7 counterexample: with no stage data anywhere the run does NOT surface
an explicit failure: progress is `none`, the unfiltered cohort is rendered
as a successful (`.ok`) stub block, refuting "surfaced to the caller as a
single explicit, clearly-labeled failure rather than a silent no-op". -/
theorem C7_counterexample :
    events_completed [c7e] = none ∧
    htmlTable env0 none "MEN_50_54" "MEN 50-54" (leaderboard none [c7e]) =
      Except.ok (divPre "MEN_50_54" ++ tableSuffix env0) ∧
    (htmlTable env0 none "MEN_50_54" "MEN 50-54"
      (leaderboard none [c7e])).isOk = true :=
  ⟨rfl, rfl, rfl⟩

/-- C8 (amended): provided no entry makes the age conversion raise (see C6:
a truthy unparseable age with gender "M"/"F" aborts the whole run and then
NO cohort exists), `create_riders` returns exactly, for every cohort
`(g, grp)`, the input-order sublist of entries classified to it — so each
classified entry lies in exactly the cohorts its classification names, the
union of cohorts is the input minus unclassifiable/header entries, and no
entry is duplicated across cohorts; moreover every age between 10 and 99
falls in exactly one of the 18 bands. -/
theorem C8_classification :
    (∀ entries : List Entry, (∀ e ∈ entries, classErr e = false) →
        create_riders entries =
          .ok (fun g grp => entries.filter (fun e => classMatches e g grp))) ∧
    (∀ a : Nat, a < 100 → 10 ≤ a →
        (AGE_GROUPS.filter (fun grp => inBand grp (a : Int))).length = 1) :=
  ⟨fun _ h => create_riders_eq h, by decide⟩

/-- C8 witness: the spec's end-to-end trio classifies with no error and the
cohorts are the classification filters; age 32 falls in exactly one band. -/
theorem C8_witness :
    create_riders [e8a, e8b, e8a2] =
      .ok (fun g grp =>
        [e8a, e8b, e8a2].filter (fun e => classMatches e g grp)) ∧
    (AGE_GROUPS.filter (fun grp => inBand grp (32 : Int))).length = 1 :=
  ⟨C8_classification.1 [e8a, e8b, e8a2] (by decide),
   C8_classification.2 32 (by decide) (by decide)⟩

/-- C8 counterexample: one malformed age aborts the whole run, so the
classifiable entry `e8a` ends up in no cohort at all, refuting the claim
for inputs containing such an entry. -/
theorem C8_counterexample :
    create_riders [e8a, c8bad] = Except.error () ∧
    classMatches e8a "MEN" "30-34" = true :=
  ⟨rfl, by decide⟩

/-- C9 (confirmed): rendering is deterministic — two runs of the renderer
on the same environment, stage, table name, label and row sequence yield
the same text (the embedded renderer is a pure function of exactly these
inputs; the `LAST_UPDATED`/contact globals are part of the environment,
fixed once per process). -/
theorem C9_render_deterministic :
    ∀ (env : RenderEnv) (events : Option Nat) (t grp : String)
      (rows : List Entry) (out1 out2 : Except Unit String),
      htmlTable env events t grp rows = out1 →
      htmlTable env events t grp rows = out2 → out1 = out2 :=
  fun _ _ _ _ _ _ _ h1 h2 => h1 ▸ h2

/-- C9 witness: two renders of the same stage-1 leaderboard coincide. -/
theorem C9_witness :
    htmlTable env0 (some 1) "MEN_30_34" "MEN 30-34" [e8b, e8a] =
      htmlTable env0 (some 1) "MEN_30_34" "MEN 30-34" [e8b, e8a] :=
  C9_render_deterministic env0 (some 1) "MEN_30_34" "MEN 30-34" [e8b, e8a]
    _ _ rfl rfl

/-- C10 (confirmed): `'RIDER NAME' not in rider['ridername']` is a
substring test, so any entry whose name CONTAINS the header placeholder
anywhere — not only an exact match — is discarded before classification and
appears in no cohort. -/
theorem C10_header_substring_discard :
    ∀ (entries : List Entry) (e : Entry) (g grp : String),
      strIn "RIDER NAME" ((e.ridername).getD "") = true →
      e ∉ cohortsOf entries g grp :=
  fun entries _ g grp h =>
    classifyEntry_none_not_mem (classifyEntry_header h) entries g grp

/-- C10 witness: a legitimate-looking name that merely contains the
placeholder is excluded from its would-be cohort. -/
theorem C10_witness :
    c10e ∉ cohortsOf [c10e] "MEN" "40-44" ∧
    c10e.ridername ≠ some "RIDER NAME" :=
  ⟨C10_header_substring_discard [c10e] c10e "MEN" "40-44" (by decide),
   by decide⟩

end TTResults
